import Mathlib

/-!
Verification of the sales-ledger viewer (normalize.py and app.py).

The definitions below are shallow embeddings of the two Python source
files.  Strings are Lean strings (Unicode code points, as in Python),
machine integers do not occur, and fallible code (a Python exception)
is embedded as an Option result with none standing for the raised
exception.
-/

/-- Python str.isspace character class, used by str.strip with no
argument.  Covers the ASCII and Unicode whitespace code points that
Python treats as space. -/
def pyIsSpace (c : Char) : Bool :=
  let n := c.toNat
  (9 ≤ n && n ≤ 13) || (28 ≤ n && n ≤ 31) || n == 32 || n == 133 || n == 160 ||
  n == 0x1680 || (0x2000 ≤ n && n ≤ 0x200A) || n == 0x2028 || n == 0x2029 ||
  n == 0x202F || n == 0x205F || n == 0x3000

/-- Python str.strip(): drop leading and trailing whitespace. -/
def pyStrip (s : String) : String :=
  (((s.toList.dropWhile pyIsSpace).reverse.dropWhile pyIsSpace).reverse).asString

/-- normalize.py, sanitize_numeric: value.strip().replace(",", "");
the final `text if text else ""` is the identity.  Removing every
comma is written as a character filter. -/
def sanitize_numeric (value : String) : String :=
  ((pyStrip value).toList.filter (fun c => c ≠ ',')).asString

/-- normalize.py, TARGET_MIN_COLUMNS. -/
def TARGET_MIN_COLUMNS : Nat := 18

/-- normalize.py, normalize_row: pad the row with empty cells up to 18. -/
def normalize_row (row : List String) : List String :=
  row ++ List.replicate (TARGET_MIN_COLUMNS - row.length) ""

/-- Python substring test `pat in s`, matching at the head of `s`. -/
def subMatchFront : List Char → List Char → Bool
  | [], _ => true
  | _ :: _, [] => false
  | p :: ps, c :: cs => p == c && subMatchFront ps cs

/-- Python substring test `pat in s`, over character lists. -/
def listContainsSub (pat : List Char) : List Char → Bool
  | [] => subMatchFront pat []
  | c :: cs => subMatchFront pat (c :: cs) || listContainsSub pat cs

/-- Python substring test: strContains s pat is `pat in s`. -/
def strContains (s pat : String) : Bool :=
  listContainsSub pat.toList s.toList

/-- normalize.py, select_description: try the variant-specific candidate
positions, then fall back to the first non-blank cell, else
("", "", -1).  Returns (original, stripped, index). -/
def select_description (row : List String) (ledger_type : String) : String × String × Int :=
  let candidate_indices : List Nat :=
    if ledger_type = "買掛" then [3, 4, 5, 6, 7, 8] else [5, 6, 3, 4, 7, 8]
  match candidate_indices.find? (fun i => decide (i < row.length) && !(pyStrip (row.getD i "") == "")) with
  | some i => (row.getD i "", pyStrip (row.getD i ""), (i : Int))
  | none =>
    match row.findIdx? (fun c => !(pyStrip c == "")) with
    | some i => (row.getD i "", pyStrip (row.getD i ""), (i : Int))
    | none => ("", "", -1)

/-- normalize.py, classify_entry, translated clause by clause. -/
def classify_entry (row : List String) (desc : String) : String :=
  if pyStrip (row.getD 0 "") == "" && !(desc == "") then
    if strContains desc "繰 越 残 高" then "opening_balance"
    else if strContains desc "計" || strContains desc "―" then "summary"
    else if strContains desc "残高" then "summary"
    else "supplier_header"
  else
    let label := (desc.toList.filter (fun c => c ≠ '　')).asString
    if strContains label "支払" && !(strContains label "計" || strContains label "繰越") then "payment"
    else if strContains label "消費税" then "tax"
    else "detail"

/-- Digits of a non-empty all-ASCII-digit character list, as a Nat. -/
def digitsVal? (l : List Char) : Option Nat :=
  if l.isEmpty then none
  else if l.all (·.isDigit) then
    some (l.foldl (fun a c => a * 10 + (c.toNat - 48)) 0)
  else none

/-- Python int(s) on a string: optional sign followed by decimal
digits, raising ValueError (none) otherwise.  Modelled for ASCII
decimal digits; int() itself also strips whitespace. -/
def pyInt (s : String) : Option Int :=
  match (pyStrip s).toList with
  | '+' :: rest => (digitsVal? rest).map (fun n => (n : Int))
  | '-' :: rest => (digitsVal? rest).map (fun n => -(n : Int))
  | l => (digitsVal? l).map (fun n => (n : Int))

/-- Python format spec 0Nd: zero-pad to the given width, the sign
counting towards the width. -/
def pyFmtZero (width : Nat) (i : Int) : String :=
  let digits := toString i.natAbs
  if i < 0 then
    "-" ++ (List.replicate (width - 1 - digits.length) '0').asString ++ digits
  else
    (List.replicate (width - digits.length) '0').asString ++ digits

/-- normalize.py, extract_date: positions 0,1,2 are year/month/day.
If any stripped part is blank the result is the empty string; if all
three are non-blank they pass through int() and f-string zero padding,
and a ValueError from int() is embedded as none. -/
def extract_date (row : List String) : Option String :=
  let y := pyStrip (row.getD 0 "")
  let m := pyStrip (row.getD 1 "")
  let d := pyStrip (row.getD 2 "")
  if y == "" || m == "" || d == "" then some ""
  else
    match pyInt y, pyInt m, pyInt d with
    | some yi, some mi, some di =>
      some (pyFmtZero 4 yi ++ "-" ++ pyFmtZero 2 mi ++ "-" ++ pyFmtZero 2 di)
    | _, _, _ => none

/-- normalize.py, iter_entries reference collection: the appended
value `row[idx].strip() if idx < len(row) else ""`. -/
def refCell (row : List String) (i : Nat) : String :=
  if i < row.length then pyStrip (row.getD i "") else ""

/-- normalize.py, iter_entries reference collection: walk positions
3..9, skip the description index, collect stripped cells, stop at 5. -/
def refLoop (row : List String) (descIdx : Int) : List Nat → List String → List String
  | [], acc => acc
  | i :: rest, acc =>
    if (i : Int) = descIdx then refLoop row descIdx rest acc
    else
      let acc2 := acc ++ [refCell row i]
      if acc2.length = 5 then acc2 else refLoop row descIdx rest acc2

/-- A reference position is kept when it is not the description
index. -/
def refIdxKept (descIdx : Int) (i : Nat) : Bool := (i : Int) ≠ descIdx

/-- normalize.py, iter_entries: the references list, padded with empty
strings to length 5. -/
def buildReferences (row : List String) (descIdx : Int) : List String :=
  let refs := refLoop row descIdx [3, 4, 5, 6, 7, 8, 9] []
  refs ++ List.replicate (5 - refs.length) ""

/-- normalize.py, iter_entries: the variant-dependent numeric fields,
in order (quantity, quantity_note, unit, tax_rate, unit_price, amount,
payment).  The receivables branch is taken exactly when the ledger
type is 売掛; note that payment there is Python string concatenation
of the two sanitized cells. -/
def entryFields (ledger_type : String) (row : List String) :
    String × String × String × String × String × String × String :=
  let get := fun i => row.getD i ""
  let num := fun i => sanitize_numeric (get i)
  if ledger_type = "売掛" then
    (num 11,
     if num 9 ≠ "" then num 9 else num 10,
     pyStrip (get 13),
     num 12,
     num 14,
     num 15,
     num 16 ++ num 17)
  else
    (num 9, num 10, pyStrip (get 11), num 12, num 13, num 14, num 15)

/-- One emitted row of the interchange table (one LedgerEntry). -/
structure Entry where
  ledger_type : String
  supplier_name : String
  entry_type : String
  block_index : Nat
  line_in_block : Nat
  source_line : Nat
  transaction_date : String
  description : String
  description_raw : String
  references : List String
  quantity : String
  quantity_note : String
  unit : String
  tax_rate : String
  unit_price : String
  amount : String
  payment : String
deriving DecidableEq

/-- Running state of iter_entries. -/
structure NState where
  supplier : String
  block : Nat
  line : Nat
deriving DecidableEq

/-- normalize.py, one loop iteration of iter_entries: pad the row,
select the description, skip all-blank rows (state unchanged), update
the block counters, and emit the output row.  A ValueError raised by
extract_date is embedded as none. -/
def processRow (ledger_type : String) (st : NState) (source_line : Nat)
    (raw : List String) : Option (Option Entry × NState) :=
  let row := normalize_row raw
  let sel := select_description row ledger_type
  if row.all (fun c => pyStrip c == "") then some (none, st)
  else
    let entry_type := classify_entry row sel.2.1
    let st2 : NState :=
      if entry_type = "supplier_header" then ⟨sel.2.1, st.block + 1, 0⟩
      else ⟨st.supplier, st.block, st.line + 1⟩
    match extract_date row with
    | none => none
    | some dateStr =>
      let refs := buildReferences row sel.2.2
      let f := entryFields ledger_type row
      some (some
        { ledger_type := ledger_type
          supplier_name := st2.supplier
          entry_type := entry_type
          block_index := st2.block
          line_in_block := st2.line
          source_line := source_line
          transaction_date := dateStr
          description := sel.2.1
          description_raw := sel.1
          references := refs
          quantity := f.1
          quantity_note := f.2.1
          unit := f.2.2.1
          tax_rate := f.2.2.2.1
          unit_price := f.2.2.2.2.1
          amount := f.2.2.2.2.2.1
          payment := f.2.2.2.2.2.2 }, st2)

/-- normalize.py, iter_entries loop from a given state and 1-based
line number. -/
def iterEntriesFrom (ledger_type : String) : NState → Nat → List (List String) → Option (List Entry)
  | _, _, [] => some []
  | st, n, r :: rs =>
    match processRow ledger_type st n r with
    | none => none
    | some (none, st2) => iterEntriesFrom ledger_type st2 (n + 1) rs
    | some (some e, st2) => (iterEntriesFrom ledger_type st2 (n + 1) rs).map (fun l => e :: l)

/-- normalize.py, iter_entries: all emitted entries, none when a row
raises. -/
def iter_entries (rows : List (List String)) (ledger_type : String) : Option (List Entry) :=
  iterEntriesFrom ledger_type ⟨"", 0, 0⟩ 1 rows

/-!
app.py.  The canonical table is read from a TSV with dtype=str and
`.replace({"": pd.NA})`, so a cell is `Option String` with none for a
missing (NA) value; an empty raw cell reads as none.
-/

/-- app.py, load_data: the effect of reading with dtype=str and
replacing the empty string by pd.NA. -/
def pdCell (s : String) : Option String := if s = "" then none else some s

/-- app.py, load_data: `"-".join([x for x in r if x])` over the
reference fragments after fillna(""). -/
def joinedRefs (refs : List (Option String)) : String :=
  String.intercalate "-" ((refs.map (fun r => r.getD "")).filter (fun x => !(x == "")))

/-- app.py, load_data lines 117-124: keep the direct document-id where
it is non-empty after fillna(""), otherwise use the hyphen-joined
non-empty reference fragments. -/
def reconcileDocId (direct : Option String) (refs : List (Option String)) : String :=
  let d := direct.getD ""
  if d ≠ "" then d else joinedRefs refs

/-- Python str.strip(chars): remove, from both ends, every character
that occurs in the chars argument (a character set, not a substring). -/
def pyStripChars (chars : String) (s : String) : String :=
  let cs := chars.toList
  (((s.toList.dropWhile (fun c => cs.contains c)).reverse.dropWhile
      (fun c => cs.contains c)).reverse).asString

/-- app.py, api_transactions: one side of the item_memo f-string —
the value itself when present and non-blank, else the empty string. -/
def itemMemoCell (v : Option String) : String :=
  match v with
  | some t => if pyStrip t ≠ "" then t else ""
  | none => ""

/-- app.py, api_transactions lines 289-291: the f-string joining item
and memo around a literal line-break marker, then Python
str.strip("<br />") on the result. -/
def item_memo (item memo : Option String) : String :=
  pyStripChars "<br />" (itemMemoCell item ++ "<br />" ++ itemMemoCell memo)

/-- unicodedata.normalize("NFKC", _) restricted to the code points the
search path exercises: the full-width ASCII block U+FF01..U+FF5E folds
onto ASCII and the ideographic space U+3000 onto the ASCII space;
every other character is kept as is. -/
def nfkcChar (c : Char) : Char :=
  if c.toNat = 0x3000 then ' '
  else if 0xFF01 ≤ c.toNat ∧ c.toNat ≤ 0xFF5E then Char.ofNat (c.toNat - 0xFEE0)
  else c

/-- app.py, _normalize_for_search: NFKC-normalize, delete the ASCII
and full-width space characters, upper-case (Python str.upper,
modelled on its ASCII letters).  none (pd.NA) maps to the empty
string. -/
def _normalize_for_search (v : Option String) : String :=
  match v with
  | none => ""
  | some t =>
    ((((t.toList.map nfkcChar).filter (fun c => !(c == ' ') && !(c == '　'))).map
        Char.toUpper)).asString

/-- app.py, _build_search_index: concatenate the normalized text of
every column value in the fixed column order. -/
def search_index (cells : List (Option String)) : String :=
  String.join (cells.map _normalize_for_search)

/-- Python re matching at the head of the text, for patterns made of
literal characters and the metacharacter dot (which matches any
character except a newline). -/
def reFrontMatch : List Char → List Char → Bool
  | [], _ => true
  | _ :: _, [] => false
  | p :: ps, c :: cs =>
    (if p = '.' then !(c == '\n') else p == c) && reFrontMatch ps cs

/-- Python re.search over the same pattern subset: try every suffix. -/
def reSearchList (pat : List Char) : List Char → Bool
  | [] => reFrontMatch pat []
  | c :: cs => reFrontMatch pat (c :: cs) || reSearchList pat cs

/-- pandas Series.str.contains(pat) with its default regex=True,
modelled for patterns whose characters are literals or the dot. -/
def reSearch (pat s : String) : Bool :=
  reSearchList pat.toList s.toList

/-- The regular-expression metacharacters of Python re. -/
def regexMetachars : List Char :=
  ".^$*+?[]()|\\\x7b\x7d".toList

/-- app.py, api_transactions keyword filter: a row survives the
keyword filter when the normalized keyword is empty (the filter is
skipped) or str.contains matches it against the search index. -/
def rowMatchesKeyword (kw : String) (cells : List (Option String)) : Bool :=
  let k := _normalize_for_search (some kw)
  if k == "" then true else reSearch k (search_index cells)

/-- pd.to_numeric on the digits of an unsigned decimal literal,
integer part and optional fractional part. -/
def parseUnsignedRat (l : List Char) : Option ℚ :=
  let intPart := l.takeWhile (fun c => !(c == '.'))
  match l.dropWhile (fun c => !(c == '.')) with
  | [] => (digitsVal? intPart).map (fun n => (n : ℚ))
  | '.' :: frac =>
    if frac.contains '.' then none
    else if intPart.isEmpty && frac.isEmpty then none
    else if intPart.all (·.isDigit) && frac.all (·.isDigit) then
      some ((intPart.foldl (fun a c => a * 10 + (c.toNat - 48)) 0 : ℚ) +
        (frac.foldl (fun a c => a * 10 + (c.toNat - 48)) 0 : ℚ) / (10 : ℚ) ^ frac.length)
    else none
  | _ => none

/-- pd.to_numeric(value, errors="coerce") on a string: an optional
sign and a decimal literal, anything else coercing to NaN (none).
Modelled on plain decimal literals (no exponent form). -/
def parseRat (s : String) : Option ℚ :=
  match (pyStrip s).toList with
  | '+' :: rest => parseUnsignedRat rest
  | '-' :: rest => (parseUnsignedRat rest).map (fun q => -q)
  | l => parseUnsignedRat l

/-- app.py, load_data numeric coercion: NA stays absent, a string is
parsed with pd.to_numeric(errors="coerce"). -/
def pdToNumeric (v : Option String) : Option ℚ := v.bind parseRat

/-- app.py, load_data lines 130-139: the unit-price back-fill mask.
When unit price is absent and amount and quantity are both present
with quantity non-zero, unit price becomes amount / quantity; in every
other case the stored unit price is kept. -/
def backfillUnitPrice (up amt qty : Option ℚ) : Option ℚ :=
  match up, amt, qty with
  | none, some a, some q => if q ≠ 0 then some (a / q) else none
  | _, _, _ => up

/-- app.py, _infer_date, modelled on its ISO YYYY-MM-DD subset (the
real code tries pd.to_datetime and then dateutil): a valid ISO date
becomes the sortable key yyyymmdd, anything else is absent. -/
def inferDate (s : String) : Option Nat :=
  match s.toList with
  | [y1, y2, y3, y4, '-', m1, m2, '-', d1, d2] =>
    if [y1, y2, y3, y4, m1, m2, d1, d2].all (·.isDigit) then
      let v := [y1, y2, y3, y4, m1, m2, d1, d2].foldl (fun a c => a * 10 + (c.toNat - 48)) 0
      let mm := v / 100 % 100
      let dd := v % 100
      if 1 ≤ mm ∧ mm ≤ 12 ∧ 1 ≤ dd ∧ dd ≤ 31 then some v else none
    else none
  | _ => none

/-- app.py, _infer_date on a cell: NA maps to absent. -/
def infer_date (v : Option String) : Option Nat := v.bind inferDate

/-- app.py, load_data, _normalize_type: the closed purchase/sale
vocabularies, else the lower-cased token, else "unknown".  Python
str.lower is modelled on its ASCII letters. -/
def _normalize_type (v : Option String) : String :=
  let vs := match v with | none => "" | some s => pyStrip s
  if ["買掛", "仕入", "Purchase", "purchase", "buy", "supplier_detail",
      "supplier_balance", "opening_balance"].contains vs then "purchase"
  else if ["売掛", "販売", "Sales", "sales", "sale", "customer_detail",
      "customer_balance"].contains vs then "sale"
  else
    let lowered := (vs.toList.map Char.toLower).asString
    if lowered = "" then "unknown" else lowered

/-- app.py, load_data, _join_refs: the space-joined non-blank stripped
values of the memo columns (reference fragments then quantity note). -/
def joinMemo (vals : List (Option String)) : String :=
  String.intercalate " "
    (((vals.filterMap id).map pyStrip).filter (fun t => !(t == "")))

/-- One row of the canonical transaction table built by load_data.
The pass-through source columns that load_data also keeps (and the
derived search_index string) are not part of this record. -/
structure CRow where
  date : Option String
  type : Option String
  counterparty : Option String
  item : Option String
  amount : Option ℚ
  quantity : Option ℚ
  unit_price : Option ℚ
  document_id : Option String
  memo : Option String
  date_parsed : Option Nat
  type_norm : String
  memo_combined : String
deriving DecidableEq

/-- app.py, load_data applied to one interchange row (the TSV columns
of normalize.py in order: ledger_type 0, supplier_name 1, entry_type
2, block_index 3, line_in_block 4, source_line 5, transaction_date 6,
description 7, description_raw 8, reference_1..5 9-13, quantity 14,
quantity_note 15, unit 16, tax_rate 17, unit_price 18, amount 19,
payment 20).  Column resolution picks transaction_date, ledger_type,
supplier_name, description, amount, quantity, reference_1 and
description_raw for the canonical fields; canonical unit_price starts
absent and is only ever back-filled. -/
def canonicalizeRow (cells : List String) : CRow :=
  let at_ := fun i => pdCell (cells.getD i "")
  let refs := [at_ 9, at_ 10, at_ 11, at_ 12, at_ 13]
  let amount := pdToNumeric (at_ 19)
  let quantity := pdToNumeric (at_ 14)
  { date := at_ 6
    type := at_ 0
    counterparty := at_ 1
    item := at_ 7
    amount := amount
    quantity := quantity
    unit_price := backfillUnitPrice none amount quantity
    document_id := some (reconcileDocId (at_ 9) refs)
    memo := at_ 8
    date_parsed := infer_date (at_ 6)
    type_norm := _normalize_type (at_ 0)
    memo_combined := joinMemo (refs ++ [at_ 15]) }

/-- app.py, load_data lines 173-177: rows whose entry_type is a
header kind are dropped, the rest are canonicalized. -/
def canonicalizeTable (rows : List (List String)) : List CRow :=
  (rows.filter (fun r =>
    !(["supplier_header", "customer_header"].contains (r.getD 2 "")))).map canonicalizeRow

/-- Primary sort key of api_transactions: date_parsed descending with
NaT last — a is strictly before b. -/
def dateBeforeB : Option Nat → Option Nat → Bool
  | some x, some y => y < x
  | some _, none => true
  | none, _ => false

/-- Primary sort key tie: equal dates or both absent. -/
def dateTieB : Option Nat → Option Nat → Bool
  | some x, some y => x == y
  | none, none => true
  | _, _ => false

/-- Python string comparison s <= t: lexicographic by code point. -/
def pyStrLeList : List Char → List Char → Bool
  | [], _ => true
  | _ :: _, [] => false
  | a :: as, b :: bs => if a = b then pyStrLeList as bs else decide (a.toNat < b.toNat)

/-- Secondary sort key of api_transactions: document_id ascending
(Python lexicographic string order) with NA last. -/
def docLeB : Option String → Option String → Bool
  | some s, some t => pyStrLeList s.toList t.toList
  | _, none => true
  | none, some _ => false

/-- app.py, api_transactions line 273: the composite order of
sort_values(by=[date_parsed, document_id], ascending=[False, True],
na_position="last"). -/
def sortLE (a b : CRow) : Bool :=
  dateBeforeB a.date_parsed b.date_parsed ||
    (dateTieB a.date_parsed b.date_parsed && docLeB a.document_id b.document_id)

/-- The sort order as a relation. -/
def sortRel (a b : CRow) : Prop := sortLE a b = true

instance : DecidableRel sortRel := fun _ _ => inferInstanceAs (Decidable (_ = true))

/-- app.py, api_transactions line 273, as a stable sort by sortRel
(pandas lexsort is a stable sort over the same composite key). -/
def sortTransactions (rows : List CRow) : List CRow :=
  rows.insertionSort sortRel

/-- The ordering the specification claims between two successive
output rows: parsed date descending, ties broken by document_id
ascending (code-point lexicographic), rows with an absent parsed date
always last. -/
def claimRel (a b : CRow) : Prop :=
  match a.date_parsed, b.date_parsed with
  | some x, some y =>
    y < x ∨ (x = y ∧ ∀ s t, a.document_id = some s → b.document_id = some t →
      pyStrLeList s.toList t.toList = true)
  | some _, none => True
  | none, some _ => False
  | none, none => True

/-- app.py, DATA_FILE (the directory prefix is omitted). -/
def dataFilePath : String := "normalized_ledgers.tsv"

/-- Process state seen by load_data: the module-level cache and the
data file (none when the file does not exist, its parsed rows
otherwise). -/
structure AppState where
  cache : Option (List CRow)
  fileOnDisk : Option (List (List String))

/-- app.py, load_data control flow: under the lock, return the cache
when present and not forced; raise FileNotFoundError (the Except
error, carrying the message) when the data file is missing; otherwise
rebuild from the file and store the new cache. -/
def load_data (force : Bool) (st : AppState) : Except String (List CRow × AppState) :=
  match st.cache, force with
  | some t, false => .ok (t, st)
  | _, _ =>
    match st.fileOnDisk with
    | none => .error ("Data file not found: " ++ dataFilePath)
    | some rows =>
      let t := canonicalizeTable rows
      .ok (t, { st with cache := some t })

/-!
Concrete inputs used by the counterexamples and witnesses.
-/

/-- A concrete receivables detail row whose cells 16 and 17 are both
non-blank numeric strings. -/
def c1Row : List String :=
  ["1", "2", "3", "d", "", "", "", "", "", "", "", "", "", "", "", "", "100", "200"]

/-- The entry emitted for c1Row. -/
def c1Entry : Entry :=
  { ledger_type := "売掛", supplier_name := "", entry_type := "detail",
    block_index := 0, line_in_block := 1, source_line := 1,
    transaction_date := "0001-02-03", description := "d", description_raw := "d",
    references := ["", "", "", "", ""], quantity := "", quantity_note := "",
    unit := "", tax_rate := "", unit_price := "", amount := "", payment := "100200" }

/-- A concrete payables detail row with pairwise distinct values in
cells 9 through 15. -/
def c5Row : List String :=
  ["1", "2", "3", "d", "", "", "", "", "", "91", "92", "u", "93", "94", "95", "96"]

/-- The entry emitted for c5Row. -/
def c5Entry : Entry :=
  { ledger_type := "買掛", supplier_name := "", entry_type := "detail",
    block_index := 0, line_in_block := 1, source_line := 1,
    transaction_date := "0001-02-03", description := "d", description_raw := "d",
    references := ["", "", "", "", ""], quantity := "91", quantity_note := "92",
    unit := "u", tax_rate := "93", unit_price := "94", amount := "95", payment := "96" }

/-- A concrete header row (blank code cell, plain description). -/
def c6Row : List String := ["", "", "", "h"]

/-- The entry emitted for c6Row under the payables variant. -/
def c6Entry : Entry :=
  { ledger_type := "買掛", supplier_name := "h", entry_type := "supplier_header",
    block_index := 1, line_in_block := 0, source_line := 1,
    transaction_date := "", description := "h", description_raw := "h",
    references := ["", "", "", "", ""], quantity := "", quantity_note := "",
    unit := "", tax_rate := "", unit_price := "", amount := "", payment := "" }

/-- A canonical row dated 2024-01-01 with document id B. -/
def c8RowB : CRow :=
  { date := some "2024-01-01", type := none, counterparty := none, item := none,
    amount := none, quantity := none, unit_price := none,
    document_id := some "B", memo := none, date_parsed := some 20240101,
    type_norm := "unknown", memo_combined := "" }

/-- A canonical row dated 2024-01-01 with document id A. -/
def c8RowA : CRow :=
  { date := some "2024-01-01", type := none, counterparty := none, item := none,
    amount := none, quantity := none, unit_price := none,
    document_id := some "A", memo := none, date_parsed := some 20240101,
    type_norm := "unknown", memo_combined := "" }

/-- A canonical row with no parsed date and document id C. -/
def c8RowC : CRow :=
  { date := none, type := none, counterparty := none, item := none,
    amount := none, quantity := none, unit_price := none,
    document_id := some "C", memo := none, date_parsed := none,
    type_norm := "unknown", memo_combined := "" }

/-- Claim C1 counterexample: on a receivables row with sanitized cells
"100" at position 16 and "200" at position 17, the emitted payment
field is the Python string concatenation "100200", not the numeric sum
300 of the two sanitized values. -/
theorem c1_payment_sum_cex :
    (processRow "売掛" ⟨"", 0, 0⟩ 1 c1Row).map (fun p => p.1.map Entry.payment) =
      some (some "100200") ∧
    sanitize_numeric (c1Row.getD 16 "") = "100" ∧
    sanitize_numeric (c1Row.getD 17 "") = "200" ∧
    digitsVal? "100200".toList ≠ some (100 + 200) ∧ "100200" ≠ "300" := by decide

/-- Claim C1 (amended): for every emitted receivables (売掛) entry,
quantity, quantity_note, unit, tax_rate, unit_price and amount are
read from positions 11, 9-or-10, 13, 12, 14 and 15 of the padded row,
and payment is the string concatenation (not the numeric sum) of the
sanitized values at positions 16 and 17. -/
theorem c1_receivables_field_positions (st : NState) (sl : Nat) (raw : List String)
    (e : Entry) (st2 : NState)
    (h : processRow "売掛" st sl raw = some (some e, st2)) :
    e.quantity = sanitize_numeric ((normalize_row raw).getD 11 "") ∧
    e.quantity_note = (if sanitize_numeric ((normalize_row raw).getD 9 "") ≠ "" then
        sanitize_numeric ((normalize_row raw).getD 9 "")
      else sanitize_numeric ((normalize_row raw).getD 10 "")) ∧
    e.unit = pyStrip ((normalize_row raw).getD 13 "") ∧
    e.tax_rate = sanitize_numeric ((normalize_row raw).getD 12 "") ∧
    e.unit_price = sanitize_numeric ((normalize_row raw).getD 14 "") ∧
    e.amount = sanitize_numeric ((normalize_row raw).getD 15 "") ∧
    e.payment = sanitize_numeric ((normalize_row raw).getD 16 "") ++
      sanitize_numeric ((normalize_row raw).getD 17 "") := by
  simp only [processRow] at h
  split at h
  · simp at h
  · split at h
    · exact absurd h (by simp)
    · simp only [Option.some.injEq, Prod.mk.injEq] at h
      obtain ⟨h1, h2⟩ := h
      subst h1
      simp [entryFields]

/-- Witness for c1_receivables_field_positions at the concrete row
c1Row. -/
theorem c1_receivables_field_positions_witness :
    c1Entry.payment = sanitize_numeric ((normalize_row c1Row).getD 16 "") ++
      sanitize_numeric ((normalize_row c1Row).getD 17 "") :=
  (c1_receivables_field_positions ⟨"", 0, 0⟩ 1 c1Row c1Entry ⟨"", 0, 1⟩
    (by decide)).2.2.2.2.2.2

/-- Claim C5 counterexample: on a payables row with pairwise distinct
sanitized cells, tax_rate comes from position 12 (not 12-2=10),
unit_price from 13 (not 14-2=12) and amount from 14 (not 15-2=13), so
the fields are not all read two positions below their receivables
counterparts. -/
theorem c5_shift_by_two_cex :
    (processRow "買掛" ⟨"", 0, 0⟩ 1 c5Row).map
        (fun p => p.1.map (fun e => (e.tax_rate, e.unit_price, e.amount))) =
      some (some ("93", "94", "95")) ∧
    sanitize_numeric ((normalize_row c5Row).getD 10 "") = "92" ∧
    sanitize_numeric ((normalize_row c5Row).getD 12 "") = "93" ∧
    sanitize_numeric ((normalize_row c5Row).getD 13 "") = "94" ∧
    ("93" : String) ≠ "92" ∧ ("94" : String) ≠ "93" ∧ ("95" : String) ≠ "94" := by decide

/-- Claim C5 (amended): for every emitted payables (買掛) entry,
quantity, quantity_note, unit, tax_rate, unit_price and amount are
read from the consecutive positions 9, 10, 11, 12, 13 and 14 of the
padded row (so only quantity and unit sit two positions below their
receivables counterparts, tax_rate keeps position 12, and unit_price
and amount sit one position below), and payment is taken directly from
position 15. -/
theorem c5_payables_field_positions (st : NState) (sl : Nat) (raw : List String)
    (e : Entry) (st2 : NState)
    (h : processRow "買掛" st sl raw = some (some e, st2)) :
    e.quantity = sanitize_numeric ((normalize_row raw).getD 9 "") ∧
    e.quantity_note = sanitize_numeric ((normalize_row raw).getD 10 "") ∧
    e.unit = pyStrip ((normalize_row raw).getD 11 "") ∧
    e.tax_rate = sanitize_numeric ((normalize_row raw).getD 12 "") ∧
    e.unit_price = sanitize_numeric ((normalize_row raw).getD 13 "") ∧
    e.amount = sanitize_numeric ((normalize_row raw).getD 14 "") ∧
    e.payment = sanitize_numeric ((normalize_row raw).getD 15 "") := by
  simp only [processRow] at h
  split at h
  · simp at h
  · split at h
    · exact absurd h (by simp)
    · simp only [Option.some.injEq, Prod.mk.injEq] at h
      obtain ⟨h1, h2⟩ := h
      subst h1
      simp [entryFields]

/-- Witness for c5_payables_field_positions at the concrete row
c5Row. -/
theorem c5_payables_field_positions_witness :
    c5Entry.payment = sanitize_numeric ((normalize_row c5Row).getD 15 "") :=
  (c5_payables_field_positions ⟨"", 0, 0⟩ 1 c5Row c5Entry ⟨"", 0, 1⟩
    (by decide)).2.2.2.2.2.2

/-- Claim C2 counterexample: a row whose three date fragments are all
non-blank but whose year fragment is not a number makes int() raise,
so date extraction fails (none) instead of yielding an absent date,
and the whole iteration over such a row fails. -/
theorem c2_date_error_cex :
    extract_date (normalize_row ["abc", "1", "2"]) = none ∧
    (extract_date (normalize_row ["abc", "1", "2"])).isSome = false ∧
    pyStrip "abc" ≠ "" ∧ pyStrip "1" ≠ "" ∧ pyStrip "2" ≠ "" ∧
    processRow "買掛" ⟨"", 0, 0⟩ 1 ["abc", "1", "2"] = none ∧
    iter_entries [["abc", "1", "2"]] "買掛" = none := by decide

/-- Claim C2 (amended): if any of the stripped positions 0,1,2 is
blank the transaction date is the empty string; if all three are
non-blank and parse as integers it is the zero-padded ISO string; but
if all three are non-blank and at least one does not parse as an
integer, int() raises ValueError and date extraction fails rather than
yielding an absent date. -/
theorem c2_extract_date_characterization (row : List String) :
    ((pyStrip (row.getD 0 "") = "" ∨ pyStrip (row.getD 1 "") = "" ∨
        pyStrip (row.getD 2 "") = "") → extract_date row = some "") ∧
    (∀ yi mi di, pyInt (pyStrip (row.getD 0 "")) = some yi →
      pyInt (pyStrip (row.getD 1 "")) = some mi →
      pyInt (pyStrip (row.getD 2 "")) = some di →
      pyStrip (row.getD 0 "") ≠ "" → pyStrip (row.getD 1 "") ≠ "" →
      pyStrip (row.getD 2 "") ≠ "" →
      extract_date row =
        some (pyFmtZero 4 yi ++ "-" ++ pyFmtZero 2 mi ++ "-" ++ pyFmtZero 2 di)) ∧
    (pyStrip (row.getD 0 "") ≠ "" → pyStrip (row.getD 1 "") ≠ "" →
      pyStrip (row.getD 2 "") ≠ "" →
      (pyInt (pyStrip (row.getD 0 "")) = none ∨ pyInt (pyStrip (row.getD 1 "")) = none ∨
        pyInt (pyStrip (row.getD 2 "")) = none) →
      extract_date row = none) := by
  refine ⟨?_, ?_, ?_⟩
  · intro h
    have hc : (pyStrip (row.getD 0 "") == "" || pyStrip (row.getD 1 "") == "" ||
        pyStrip (row.getD 2 "") == "") = true := by
      rcases h with h | h | h <;> rw [h] <;> simp
    simp only [extract_date, hc]
    simp
  · intro yi mi di h0 h1 h2 hy hm hd
    have hc : (pyStrip (row.getD 0 "") == "" || pyStrip (row.getD 1 "") == "" ||
        pyStrip (row.getD 2 "") == "") = false := by
      simp only [Bool.or_eq_false_iff, beq_eq_false_iff_ne, ne_eq]
      exact ⟨⟨hy, hm⟩, hd⟩
    simp only [extract_date, hc, h0, h1, h2]
    simp
  · intro hy hm hd h
    have hc : (pyStrip (row.getD 0 "") == "" || pyStrip (row.getD 1 "") == "" ||
        pyStrip (row.getD 2 "") == "") = false := by
      simp only [Bool.or_eq_false_iff, beq_eq_false_iff_ne, ne_eq]
      exact ⟨⟨hy, hm⟩, hd⟩
    simp only [extract_date, hc]
    rcases hye : pyInt (pyStrip (row.getD 0 "")) with _ | yi <;>
      rcases hme : pyInt (pyStrip (row.getD 1 "")) with _ | mi <;>
        rcases hde : pyInt (pyStrip (row.getD 2 "")) with _ | di <;>
          simp_all

/-- Witness for c2_extract_date_characterization at concrete rows. -/
theorem c2_extract_date_characterization_witness :
    extract_date ["", "1", "2"] = some "" ∧
    extract_date ["2024", "1", "2"] =
      some (pyFmtZero 4 2024 ++ "-" ++ pyFmtZero 2 1 ++ "-" ++ pyFmtZero 2 2) ∧
    extract_date ["abc", "1", "2"] = none :=
  ⟨(c2_extract_date_characterization ["", "1", "2"]).1 (Or.inl (by decide)),
   (c2_extract_date_characterization ["2024", "1", "2"]).2.1 2024 1 2
     (by decide) (by decide) (by decide) (by decide) (by decide) (by decide),
   (c2_extract_date_characterization ["abc", "1", "2"]).2.2
     (by decide) (by decide) (by decide) (Or.inl (by decide))⟩

/-- The reference loop collects, in order, the filtered stripped cells
and truncates the collection at five entries. -/
theorem refLoop_take (row : List String) (d : Int) :
    ∀ (idxs : List Nat) (acc : List String), acc.length < 5 →
      refLoop row d idxs acc =
        (acc ++ (idxs.filter (refIdxKept d)).map (refCell row)).take 5
  | [], acc, h => by
    simp [refLoop, List.take_of_length_le (le_of_lt h)]
  | i :: rest, acc, h => by
    by_cases hid : (i : Int) = d
    · rw [refLoop, if_pos hid]
      have hf : (i :: rest).filter (refIdxKept d) = rest.filter (refIdxKept d) := by
        simp [List.filter_cons, refIdxKept, hid]
      rw [refLoop_take row d rest acc h, hf]
    · rw [refLoop, if_neg hid]
      have hf : (i :: rest).filter (refIdxKept d) =
          i :: rest.filter (refIdxKept d) := by
        simp [List.filter_cons, refIdxKept, hid]
      rw [hf]
      have hassoc : acc ++ ((i :: rest.filter (refIdxKept d)).map (refCell row)) =
          (acc ++ [refCell row i]) ++ (rest.filter (refIdxKept d)).map (refCell row) := by
        simp
      rw [hassoc]
      by_cases h5 : (acc ++ [refCell row i]).length = 5
      · rw [if_pos h5, List.take_append_eq_append_take, h5, Nat.sub_self,
          List.take_zero, List.append_nil, List.take_of_length_le (le_of_eq h5)]
      · rw [if_neg h5]
        have hlt : (acc ++ [refCell row i]).length < 5 := by
          simp only [List.length_append, List.length_cons, List.length_nil] at h5 ⊢
          omega
        exact refLoop_take row d rest (acc ++ [refCell row i]) hlt

/-- Claim C6: every emitted entry has a references list of exactly 5
entries, obtained by collecting the stripped cells at positions 3-9 in
order, skipping the description index, truncated at five values and
padded with empty strings to length 5. -/
theorem c6_references_length (ledger : String) (st : NState) (sl : Nat)
    (raw : List String) (e : Entry) (st2 : NState)
    (h : processRow ledger st sl raw = some (some e, st2)) :
    e.references.length = 5 ∧
    e.references =
      (let row := normalize_row raw
       let d := (select_description row ledger).2.2
       let collected :=
         (([3, 4, 5, 6, 7, 8, 9] : List Nat).filter (refIdxKept d)).map (refCell row)
       collected.take 5 ++ List.replicate (5 - (collected.take 5).length) "") := by
  have hrefs : e.references =
      buildReferences (normalize_row raw)
        (select_description (normalize_row raw) ledger).2.2 := by
    simp only [processRow] at h
    split at h
    · simp at h
    · split at h
      · exact absurd h (by simp)
      · simp only [Option.some.injEq, Prod.mk.injEq] at h
        obtain ⟨h1, h2⟩ := h
        subst h1
        rfl
  have hb : buildReferences (normalize_row raw)
      (select_description (normalize_row raw) ledger).2.2 =
      (let row := normalize_row raw
       let d := (select_description row ledger).2.2
       let collected :=
         (([3, 4, 5, 6, 7, 8, 9] : List Nat).filter (refIdxKept d)).map (refCell row)
       collected.take 5 ++ List.replicate (5 - (collected.take 5).length) "") := by
    rw [buildReferences, refLoop_take _ _ _ [] (by simp)]
    simp
  rw [hrefs, hb]
  refine ⟨?_, rfl⟩
  simp only [List.length_append, List.length_replicate, List.length_take]
  omega

/-- Witness for c6_references_length at the concrete header row
c6Row. -/
theorem c6_references_length_witness : c6Entry.references.length = 5 :=
  (c6_references_length "買掛" ⟨"", 0, 0⟩ 1 c6Row c6Entry ⟨"h", 1, 0⟩ (by decide)).1

/-- Claim C3: the canonical document_id is the reconciliation of the
resolved direct cell (reference_1 under the interchange schema) with
the reference fragments; when the direct document-id is absent or
blank, the result is the non-blank fragments joined with "-"; in
particular blank direct id with fragments INV, _, 2024, _, _ gives
"INV-2024". -/
theorem c3_document_id_fallback (direct : Option String) (refs : List (Option String))
    (h : direct = none ∨ direct = some "") :
    reconcileDocId direct refs =
      String.intercalate "-"
        ((refs.map (fun r => r.getD "")).filter (fun x => !(x == ""))) ∧
    reconcileDocId none [some "INV", none, some "2024", none, none] = "INV-2024" ∧
    (∀ cells : List String, (canonicalizeRow cells).document_id =
      some (reconcileDocId (pdCell (cells.getD 9 ""))
        [pdCell (cells.getD 9 ""), pdCell (cells.getD 10 ""), pdCell (cells.getD 11 ""),
         pdCell (cells.getD 12 ""), pdCell (cells.getD 13 "")])) := by
  refine ⟨?_, by decide, fun cells => rfl⟩
  rcases h with h | h <;> subst h <;> simp [reconcileDocId, joinedRefs]

/-- Witness for c3_document_id_fallback at the concrete fragments of
the specification example. -/
theorem c3_document_id_fallback_witness :
    reconcileDocId none [some "INV", none, some "2024", none, none] = "INV-2024" :=
  (c3_document_id_fallback none [some "INV", none, some "2024", none, none]
    (Or.inl rfl)).2.1

/-- Claim C4 (code bug): Python str.strip("<br />") strips the
character set of the marker, not the marker substring, so an item that
begins or ends with one of those characters is mangled.  With item
"rope" and a blank memo the emitted item_memo is "ope" and the item
text no longer appears in the joined value; with two clean sides the
join behaves as described. -/
theorem c4_item_memo_strip_bug :
    item_memo (some "rope") none = "ope" ∧
    strContains (item_memo (some "rope") none) "rope" = false ∧
    item_memo (some "Pens") (some "Box") = "Pens<br />Box" ∧
    item_memo none (some "Box") = "Box" := by decide

/-- Claim C9: the canonical unit price is exactly the back-fill of an
initially absent unit price from amount and quantity; the back-fill
fires precisely when amount is present and quantity is present and
non-zero, giving amount / quantity, and is skipped in every other
case; with amount 1000 and quantity 4 it yields 250, and with
quantity 0 the unit price stays absent. -/
theorem c9_unit_price_backfill :
    (∀ cells : List String, (canonicalizeRow cells).unit_price =
      backfillUnitPrice none (pdToNumeric (pdCell (cells.getD 19 "")))
        (pdToNumeric (pdCell (cells.getD 14 "")))) ∧
    (∀ a q : ℚ, q ≠ 0 → backfillUnitPrice none (some a) (some q) = some (a / q)) ∧
    (∀ up amt qty : Option ℚ, up ≠ none ∨ amt = none ∨ qty = none ∨ qty = some 0 →
      backfillUnitPrice up amt qty = up) ∧
    backfillUnitPrice none (pdToNumeric (some "1000")) (pdToNumeric (some "4")) =
      some 250 ∧
    backfillUnitPrice none (pdToNumeric (some "1000")) (pdToNumeric (some "0")) =
      none := by
  refine ⟨fun cells => rfl, ?_, ?_, ?_, ?_⟩
  · intro a q hq
    simp [backfillUnitPrice, hq]
  · intro up amt qty h
    rcases up with _ | u <;> rcases amt with _ | a <;> rcases qty with _ | q <;>
      simp_all [backfillUnitPrice]
  · have h1 : pdToNumeric (some "1000") = some 1000 := by decide
    have h2 : pdToNumeric (some "4") = some 4 := by decide
    rw [h1, h2]
    simp only [backfillUnitPrice]
    norm_num
  · have h1 : pdToNumeric (some "1000") = some 1000 := by decide
    have h2 : pdToNumeric (some "0") = some 0 := by decide
    rw [h1, h2]
    simp [backfillUnitPrice]

/-- Witness for c9_unit_price_backfill at amount 1000 and
quantity 4. -/
theorem c9_unit_price_backfill_witness :
    backfillUnitPrice none (some (1000 : ℚ)) (some 4) = some (1000 / 4) :=
  c9_unit_price_backfill.2.1 1000 4 (by norm_num)

/-- Claim C10: with no cache and a missing data file, load_data raises
FileNotFoundError naming the data file path (it does not return an
empty table); with a cached table and force off it returns the cached
snapshot with the state unchanged, and the returned table does not
depend on the file at all. -/
theorem c10_load_data_cache :
    (∀ (force : Bool) (st : AppState), st.cache = none → st.fileOnDisk = none →
      load_data force st = .error ("Data file not found: " ++ dataFilePath) ∧
      strContains ("Data file not found: " ++ dataFilePath) dataFilePath = true) ∧
    (∀ (st : AppState) (t : List CRow), st.cache = some t →
      load_data false st = .ok (t, st)) ∧
    (∀ (t : List CRow) (f1 f2 : Option (List (List String))),
      (load_data false ⟨some t, f1⟩).map Prod.fst =
        (load_data false ⟨some t, f2⟩).map Prod.fst) := by
  refine ⟨?_, ?_, ?_⟩
  · intro force st h1 h2
    cases st
    simp_all only []
    subst h1 h2
    cases force <;> exact ⟨rfl, by decide⟩
  · intro st t h
    cases st
    simp_all only []
    subst h
    rfl
  · intro t f1 f2
    rfl

/-- Witness for c10_load_data_cache at a missing file and at a cached
empty table. -/
theorem c10_load_data_cache_witness :
    load_data false ⟨none, none⟩ = .error ("Data file not found: " ++ dataFilePath) ∧
    load_data false ⟨some [], none⟩ = .ok ([], ⟨some [], none⟩) :=
  ⟨(c10_load_data_cache.1 false ⟨none, none⟩ rfl rfl).1,
   c10_load_data_cache.2.1 ⟨some [], none⟩ [] rfl⟩

/-- Characters with equal code points are equal. -/
theorem char_toNat_inj (a b : Char) (h : a.toNat = b.toNat) : a = b :=
  Char.eq_of_val_eq (UInt32.ext h)

/-- pyStrLeList is total. -/
theorem pyStrLeList_total : ∀ x y : List Char,
    pyStrLeList x y = true ∨ pyStrLeList y x = true
  | [], _ => Or.inl rfl
  | _ :: _, [] => Or.inr rfl
  | a :: as, b :: bs => by
    by_cases hab : a = b
    · subst hab
      simp only [pyStrLeList, if_pos rfl]
      exact pyStrLeList_total as bs
    · have hne : a.toNat ≠ b.toNat := fun h => hab (char_toNat_inj a b h)
      have hba : ¬(b = a) := fun h => hab h.symm
      simp only [pyStrLeList, if_neg hab, if_neg hba, decide_eq_true_eq]
      omega

/-- pyStrLeList is transitive. -/
theorem pyStrLeList_trans : ∀ x y z : List Char,
    pyStrLeList x y = true → pyStrLeList y z = true → pyStrLeList x z = true
  | [], _, _, _, _ => rfl
  | _ :: _, [], _, h1, _ => by simp [pyStrLeList] at h1
  | _ :: _, _ :: _, [], _, h2 => by simp [pyStrLeList] at h2
  | a :: as, b :: bs, c :: cs, h1, h2 => by
    by_cases hab : a = b <;> by_cases hbc : b = c
    · subst hab
      subst hbc
      simp only [pyStrLeList, if_pos rfl] at h1 h2 ⊢
      exact pyStrLeList_trans as bs cs h1 h2
    · subst hab
      simp only [pyStrLeList, if_pos rfl, if_neg hbc, decide_eq_true_eq] at h1 h2
      simp only [pyStrLeList, if_neg hbc, decide_eq_true_eq]
      exact h2
    · subst hbc
      simp only [pyStrLeList, if_neg hab, if_pos rfl, decide_eq_true_eq] at h1 h2
      simp only [pyStrLeList, if_neg hab, decide_eq_true_eq]
      exact h1
    · simp only [pyStrLeList, if_neg hab, if_neg hbc, decide_eq_true_eq] at h1 h2
      have hac : a ≠ c := by
        intro h
        subst h
        omega
      simp only [pyStrLeList, if_neg hac, decide_eq_true_eq]
      omega

/-- docLeB is total. -/
theorem docLeB_total : ∀ x y : Option String, docLeB x y = true ∨ docLeB y x = true
  | none, none => Or.inl rfl
  | none, some _ => Or.inr rfl
  | some _, none => Or.inl rfl
  | some s, some t => pyStrLeList_total s.toList t.toList

/-- docLeB is transitive. -/
theorem docLeB_trans (x y z : Option String) (h1 : docLeB x y = true)
    (h2 : docLeB y z = true) : docLeB x z = true := by
  rcases z with _ | u
  · rcases x with _ | s <;> rfl
  · rcases y with _ | t
    · simp [docLeB] at h2
    · rcases x with _ | s
      · simp [docLeB] at h1
      · exact pyStrLeList_trans s.toList t.toList u.toList h1 h2

/-- sortLE is total. -/
theorem sortLE_total (a b : CRow) : sortLE a b = true ∨ sortLE b a = true := by
  rcases ha : a.date_parsed with _ | x <;> rcases hb : b.date_parsed with _ | y <;>
    simp only [sortLE, ha, hb, dateBeforeB, dateTieB, Bool.false_or, Bool.or_false,
      Bool.true_and, Bool.false_and, Bool.false_eq_true, Bool.or_eq_true,
      Bool.and_eq_true, decide_eq_true_eq, beq_iff_eq, false_and, and_false,
      false_or, or_false]
  · simpa using docLeB_total a.document_id b.document_id
  · by_cases hxy : x = y
    · subst hxy
      rcases docLeB_total a.document_id b.document_id with h | h
      · exact Or.inl (Or.inr ⟨rfl, h⟩)
      · exact Or.inr (Or.inr ⟨rfl, h⟩)
    · rcases Nat.lt_or_ge x y with h | h
      · exact Or.inr (Or.inl h)
      · exact Or.inl (Or.inl (by omega))

/-- sortLE is transitive. -/
theorem sortLE_trans (a b c : CRow) (h1 : sortLE a b = true) (h2 : sortLE b c = true) :
    sortLE a c = true := by
  rcases ha : a.date_parsed with _ | x <;> rcases hb : b.date_parsed with _ | y <;>
    rcases hc : c.date_parsed with _ | z <;>
      simp only [sortLE, ha, hb, hc, dateBeforeB, dateTieB, Bool.false_or,
        Bool.or_false, Bool.true_and, Bool.false_and, Bool.false_eq_true,
        Bool.or_eq_true, Bool.and_eq_true, decide_eq_true_eq, beq_iff_eq,
        false_and, and_false, false_or, or_false] at h1 h2 ⊢
  · exact docLeB_trans _ _ _ h1 h2
  · rcases h1 with h1 | ⟨he1, hd1⟩ <;> rcases h2 with h2 | ⟨he2, hd2⟩
    · exact Or.inl (by omega)
    · exact Or.inl (by omega)
    · exact Or.inl (by omega)
    · exact Or.inr ⟨by omega, docLeB_trans _ _ _ hd1 hd2⟩

/-- Every pair ordered by the code-side sortLE satisfies the ordering
the specification claims. -/
theorem sortLE_imp_claimRel (a b : CRow) (h : sortLE a b = true) : claimRel a b := by
  rcases ha : a.date_parsed with _ | x <;> rcases hb : b.date_parsed with _ | y <;>
    simp only [sortLE, claimRel, ha, hb, dateBeforeB, dateTieB, Bool.false_or,
      Bool.or_false, Bool.true_and, Bool.false_and, Bool.false_eq_true,
      Bool.or_eq_true, Bool.and_eq_true, decide_eq_true_eq, beq_iff_eq,
      false_and, and_false, false_or, or_false] at h ⊢
  rcases h with h | ⟨he, hd⟩
  · exact Or.inl h
  · refine Or.inr ⟨he, fun s t hs ht => ?_⟩
    rw [hs, ht] at hd
    exact hd

/-- Claim C8: the query output is ordered by parsed date descending
with ties broken by document_id ascending and rows with an absent
parsed date last; on the concrete scenario, rows [2024-01-01/B],
[2024-01-01/A], [absent/C] sort as [A, B, C]. -/
theorem c8_sort_order :
    (∀ rows : List CRow, (sortTransactions rows).Pairwise claimRel) ∧
    sortTransactions [c8RowB, c8RowA, c8RowC] = [c8RowA, c8RowB, c8RowC] := by
  constructor
  · intro rows
    have hs : (rows.insertionSort sortRel).Pairwise sortRel :=
      @List.sorted_insertionSort CRow sortRel _ ⟨sortLE_total⟩
        ⟨fun a b c => sortLE_trans a b c⟩ rows
    exact hs.imp (fun h => sortLE_imp_claimRel _ _ h)
  · decide

/-- The empty pattern is contained in every text. -/
theorem listContainsSub_nil : ∀ s : List Char, listContainsSub [] s = true
  | [] => rfl
  | _ :: _ => by simp [listContainsSub, subMatchFront]

/-- For a pattern without the dot metacharacter, regex head matching
is literal head matching. -/
theorem reFrontMatch_eq : ∀ (pat s : List Char),
    pat.all (fun c => !(c == '.')) = true →
    reFrontMatch pat s = subMatchFront pat s
  | [], s, _ => by cases s <;> rfl
  | _ :: _, [], _ => rfl
  | p :: ps, c :: cs, h => by
    have hh := h
    simp only [List.all_cons, Bool.and_eq_true] at hh
    have hp : ¬(p = '.') := by
      intro hpe
      subst hpe
      simp at hh
    simp only [reFrontMatch, subMatchFront, if_neg hp,
      reFrontMatch_eq ps cs hh.2]

/-- For a pattern without the dot metacharacter, regex search is the
Python substring test. -/
theorem reSearchList_eq (pat : List Char)
    (h : pat.all (fun c => !(c == '.')) = true) :
    ∀ s : List Char, reSearchList pat s = listContainsSub pat s
  | [] => by simp only [reSearchList, listContainsSub, reFrontMatch_eq pat [] h]
  | c :: cs => by
    simp only [reSearchList, listContainsSub, reFrontMatch_eq pat (c :: cs) h,
      reSearchList_eq pat h cs]

/-- Claim C7 (amended): keyword search is case-, width- and
space-insensitive: stored values and the query keyword both pass
through the same normalization, and for a normalized keyword free of
regex metacharacters the pandas str.contains filter coincides with a
substring test against the concatenated search index (with
metacharacters the filter is a regex search, see the counterexample);
the full-width query matches the stored "ABC" and the spaced query
matches the stored "東京都". -/
theorem c7_search_normalization :
    (∀ (kw : String) (cells : List (Option String)),
      (_normalize_for_search (some kw)).toList.all
          (fun c => !(regexMetachars.contains c)) = true →
      rowMatchesKeyword kw cells =
        strContains (search_index cells) (_normalize_for_search (some kw))) ∧
    _normalize_for_search (some "ａｂｃ") = "ABC" ∧
    rowMatchesKeyword "ａｂｃ" [some "ABC"] = true ∧
    _normalize_for_search (some "東京 都") = "東京都" ∧
    rowMatchesKeyword "東京 都" [some "東京都"] = true := by
  refine ⟨?_, by decide, by decide, by decide, by decide⟩
  intro kw cells h
  have hnd : (_normalize_for_search (some kw)).toList.all
      (fun c => !(c == '.')) = true := by
    rw [List.all_eq_true] at h ⊢
    intro c hc
    have h2 := h c hc
    cases hcq : (c == '.') with
    | false => simp [hcq]
    | true =>
      have hce : c = '.' := by simpa using hcq
      subst hce
      rw [show regexMetachars.contains '.' = true from by decide] at h2
      simp at h2
  simp only [rowMatchesKeyword, strContains, reSearch]
  by_cases hk : _normalize_for_search (some kw) = ""
  · rw [hk]
    simp only [beq_self_eq_true, if_true]
    exact (listContainsSub_nil _).symm
  · have hk2 : (_normalize_for_search (some kw) == "") = false := by
      simpa using hk
    simp only [hk2, Bool.false_eq_true, if_false]
    exact reSearchList_eq _ hnd _

/-- Witness for c7_search_normalization at the full-width keyword of
the specification example. -/
theorem c7_search_normalization_witness :
    rowMatchesKeyword "ａｂｃ" [some "ABC"] =
      strContains (search_index [some "ABC"]) (_normalize_for_search (some "ａｂｃ")) :=
  c7_search_normalization.1 "ａｂｃ" [some "ABC"] (by decide)

/-- Claim C7 counterexample: pandas str.contains treats the normalized
keyword as a regular expression, so the keyword "A.C" matches the
stored value "ABC" even though "A.C" is not a substring of the search
index. -/
theorem c7_regex_substring_cex :
    rowMatchesKeyword "A.C" [some "ABC"] = true ∧
    strContains (search_index [some "ABC"]) (_normalize_for_search (some "A.C")) =
      false ∧
    _normalize_for_search (some "A.C") = "A.C" := by decide
